import Mathlib

/-
  Verification development for the visual-to-code repository
  (an Express backend, src/backend/server.js, that turns an uploaded UI
  screenshot into generated front-end code via the Gemini SDK with
  model fallback, and a React frontend, src/frontend/src/App.jsx, whose
  preview builder turns raw model output into a sandboxable HTML document).

  The JavaScript sources are embedded shallowly:
  - strings are Lean String; JS string concatenation and template literals
    become String append of the literal chunks and the interpolated parts,
    and a JS template literal renders an undefined lookup as the text
    "undefined", which the embedding makes explicit;
  - the two regex replaces of the result normalizer are modelled as
    executable recursive functions over List Char with the same
    leftmost-match semantics as String.prototype.replace with a global regex;
  - the Gemini SDK call and JSON.parse are external services, passed in as
    explicit function parameters (oracles); JSON.parse results are modelled
    as string arrays, which is what the frontend always submits;
  - Express routing is modelled as an ordered layer list with Express 4
    dispatch semantics: a normal layer that raises an error skips all later
    normal layers and is handled by the next error-handling layer that was
    registered AFTER it, or by the Express default handler (status 500)
    when none follows; an async route handler whose promise rejects
    produces no HTTP response at all (modelled as Outcome.unhandledRejection).

  Plain-object lookups (frameworkPrompts[x], featurePrompts[x],
  fallbackTemplates[x]) are modelled as lookups over exactly the declared
  keys; JS prototype-chain keys such as "constructor" are not modelled.
-/

namespace VisualToCode

set_option maxRecDepth 4096

/-! ### Small list utilities shared by the embeddings -/

/-- The backtick character, U+0060. -/
def tick : Char := Char.ofNat 96

/-- Is this character a backtick? -/
def isTick (c : Char) : Bool := c == tick

/-- Does the second list start with the first one? -/
def leadsWith : List Char → List Char → Bool
  | [], _ => true
  | _ :: _, [] => false
  | p :: ps, c :: cs => p == c && leadsWith ps cs

/-- Does the pattern occur as a contiguous substring of the second list?
Executable counterpart of the JS String.prototype.includes test. -/
def occursIn (pat : List Char) : List Char → Bool
  | [] => pat.isEmpty
  | c :: cs => leadsWith pat (c :: cs) || occursIn pat cs

/-- Propositional form of substring occurrence. -/
def Occurs (pat s : List Char) : Prop := ∃ a b, s = a ++ pat ++ b

/-- String form of occursIn; model of JS s.includes(pat). -/
def occursString (pat s : String) : Bool := occursIn pat.data s.data

/-- Characters removed by JS String.prototype.trim: ECMAScript WhiteSpace
and LineTerminator code points. -/
def jsWhitespace (c : Char) : Bool :=
  [9, 10, 11, 12, 13, 32, 160, 0x1680, 0x2000, 0x2001, 0x2002, 0x2003,
   0x2004, 0x2005, 0x2006, 0x2007, 0x2008, 0x2009, 0x200A, 0x2028, 0x2029,
   0x202F, 0x205F, 0x3000, 0xFEFF].contains c.toNat

/-- Model of JS String.prototype.trim: drop whitespace from both ends. -/
def jsTrim (cs : List Char) : List Char :=
  ((cs.dropWhile jsWhitespace).reverse.dropWhile jsWhitespace).reverse

/-- Model of JS Array.prototype.join: concatenate with a separator between
consecutive elements (empty output for the empty array). -/
def joinWith (sep : String) : List String → String
  | [] => ""
  | [s] => s
  | s :: rest => s ++ sep ++ joinWith sep rest

/-- List-of-characters counterpart of joinWith with a one-character separator. -/
def joinChars (sep : Char) : List (List Char) → List Char
  | [] => []
  | [l] => l
  | l :: rest => l ++ sep :: joinChars sep rest
/-- Framework instruction for "html" (server.js frameworkPrompts). -/
def htmlFrameworkPrompt : String :=
  "Generate clean, semantic HTML and CSS. Use modern CSS with Flexbox/Grid. Make it responsive and accessible."

/-- Framework instruction for "tailwind" (server.js frameworkPrompts). -/
def tailwindFrameworkPrompt : String :=
  "Generate HTML with Tailwind CSS classes. Make it responsive and use proper Tailwind utility classes. Include the necessary Tailwind CSS CDN link in the head."

/-- Framework instruction for "react" (server.js frameworkPrompts). -/
def reactFrameworkPrompt : String :=
  "Generate a React functional component with JSX. Use modern React practices and functional components. Include any necessary imports."

/-- Framework instruction for "vue" (server.js frameworkPrompts). -/
def vueFrameworkPrompt : String :=
  "Generate a Vue single-file component with template, script, and style sections."

/-- Feature instruction for "responsive" (server.js featurePrompts). -/
def responsiveFeaturePrompt : String :=
  "Ensure the design is fully responsive and works on mobile, tablet, and desktop."

/-- Feature instruction for "accessible" (server.js featurePrompts). -/
def accessibleFeaturePrompt : String :=
  "Include proper ARIA labels, semantic HTML, and accessibility features."

/-- Feature instruction for "interactive" (server.js featurePrompts). -/
def interactiveFeaturePrompt : String :=
  "Add appropriate hover states, focus states, and interactive elements where needed."

/-- Feature instruction for "modern" (server.js featurePrompts). -/
def modernFeaturePrompt : String :=
  "Use modern CSS features like Flexbox/Grid and best practices."

/-- Static text of the prompt template before the framework instruction (server.js). -/
def promptHead : String :=
  "\n      You are an expert frontend developer. Convert the provided UI design to clean, production-ready code.\n      "

/-- Static text of the prompt template between framework instruction and feature text (server.js). -/
def promptMid : String :=
  "\n      "

/-- Static text of the prompt template after the feature text (server.js). -/
def promptTail : String :=
  "\n      \n      IMPORTANT GUIDELINES:\n      1. Create pixel-perfect, clean code that matches the design exactly\n      2. Use semantic HTML5 elements\n      3. Make it fully responsive\n      4. Include proper accessibility attributes\n      5. Use modern CSS practices (Flexbox/Grid)\n      6. Add comments for important sections\n      7. Ensure cross-browser compatibility\n      8. Use appropriate colors, spacing, and typography\n      9. Export complete, runnable code\n      10. If using Tailwind, include the CDN link: <script src=\"https://cdn.tailwindcss.com\"></script>\n      \n      Return only the code without any explanations or markdown formatting.\n    "

/-- Static text of the text-only fallback prompt before the interpolated prompt (server.js). -/
def textPromptHead : String :=
  "\n            "

/-- Static text of the text-only fallback prompt between prompt and framework name (server.js). -/
def textPromptMid : String :=
  "\n            \n            Since I cannot process the image directly, please generate a generic "

/-- Static text of the text-only fallback prompt after the framework name (server.js). -/
def textPromptTail : String :=
  " component that includes:\n            - A responsive layout\n            - Modern styling\n            - Common UI elements (buttons, inputs, cards, etc.)\n            - Accessibility features\n            - Clean, production-ready code\n            \n            Make it look professional and modern.\n          "

/-- Static fallback code sample for framework "html" (server.js fallbackTemplates). -/
def fallbackHtmlTemplate : String :=
  "<!DOCTYPE html>\n<html lang=\"en\">\n<head>\n    <meta charset=\"UTF-8\">\n    <meta name=\"viewport\" content=\"width=device-width, initial-scale=1.0\">\n    <title>Generated UI Component</title>\n    <style>\n        * \x7b\n            margin: 0;\n            padding: 0;\n            box-sizing: border-box;\n        \x7d\n        body \x7b\n            font-family: -apple-system, BlinkMacSystemFont, \x27Segoe UI\x27, Roboto, sans-serif;\n            background: linear-gradient(135deg, #667eea 0%, #764ba2 100%);\n            min-height: 100vh;\n            display: flex;\n            align-items: center;\n            justify-content: center;\n            padding: 20px;\n        \x7d\n        .container \x7b\n            max-width: 400px;\n            width: 100%;\n        \x7d\n        .card \x7b\n            background: white;\n            border-radius: 12px;\n            box-shadow: 0 20px 40px rgba(0, 0, 0, 0.1);\n            overflow: hidden;\n        \x7d\n        .card-header \x7b\n            background: linear-gradient(135deg, #667eea 0%, #764ba2 100%);\n            color: white;\n            padding: 2rem;\n            text-align: center;\n        \x7d\n        .card-body \x7b\n            padding: 2rem;\n        \x7d\n        .form-group \x7b\n            margin-bottom: 1.5rem;\n        \x7d\n        label \x7b\n            display: block;\n            margin-bottom: 0.5rem;\n            font-weight: 500;\n            color: #333;\n        \x7d\n        input \x7b\n            width: 100%;\n            padding: 12px;\n            border: 2px solid #e1e5e9;\n            border-radius: 8px;\n            font-size: 16px;\n            transition: border-color 0.3s;\n        \x7d\n        input:focus \x7b\n            outline: none;\n            border-color: #667eea;\n        \x7d\n        .btn \x7b\n            width: 100%;\n            padding: 12px;\n            background: linear-gradient(135deg, #667eea 0%, #764ba2 100%);\n            color: white;\n            border: none;\n            border-radius: 8px;\n            font-size: 16px;\n            font-weight: 600;\n            cursor: pointer;\n            transition: transform 0.2s;\n        \x7d\n        .btn:hover \x7b\n            transform: translateY(-2px);\n        \x7d\n        @media (max-width: 480px) \x7b\n            .card-header, .card-body \x7b\n                padding: 1.5rem;\n            \x7d\n        \x7d\n    </style>\n</head>\n<body>\n    <div class=\"container\">\n        <div class=\"card\">\n            <div class=\"card-header\">\n                <h1>Welcome Back</h1>\n                <p>Sign in to your account</p>\n            </div>\n            <div class=\"card-body\">\n                <div class=\"form-group\">\n                    <label for=\"email\">Email Address</label>\n                    <input type=\"email\" id=\"email\" placeholder=\"Enter your email\">\n                </div>\n                <div class=\"form-group\">\n                    <label for=\"password\">Password</label>\n                    <input type=\"password\" id=\"password\" placeholder=\"Enter your password\">\n                </div>\n                <button class=\"btn\">Sign In</button>\n            </div>\n        </div>\n    </div>\n</body>\n</html>"

/-- Static fallback code sample for framework "react" (server.js fallbackTemplates). -/
def fallbackReactTemplate : String :=
  "import React, \x7b useState \x7d from \x27react\x27;\nimport \x27./App.css\x27;\n\nfunction App() \x7b\n    const [email, setEmail] = useState(\x27\x27);\n    const [password, setPassword] = useState(\x27\x27);\n\n    const handleSubmit = (e) => \x7b\n        e.preventDefault();\n        console.log(\x27Sign in attempt:\x27, \x7b email, password \x7d);\n    \x7d;\n\n    return (\n        <div className=\"app\">\n            <div className=\"container\">\n                <div className=\"card\">\n                    <div className=\"card-header\">\n                        <h1>Welcome Back</h1>\n                        <p>Sign in to your account</p>\n                    </div>\n                    <div className=\"card-body\">\n                        <form onSubmit=\x7bhandleSubmit\x7d>\n                            <div className=\"form-group\">\n                                <label htmlFor=\"email\">Email Address</label>\n                                <input\n                                    type=\"email\"\n                                    id=\"email\"\n                                    value=\x7bemail\x7d\n                                    onChange=\x7b(e) => setEmail(e.target.value)\x7d\n                                    placeholder=\"Enter your email\"\n                                    required\n                                />\n                            </div>\n                            <div className=\"form-group\">\n                                <label htmlFor=\"password\">Password</label>\n                                <input\n                                    type=\"password\"\n                                    id=\"password\"\n                                    value=\x7bpassword\x7d\n                                    onChange=\x7b(e) => setPassword(e.target.value)\x7d\n                                    placeholder=\"Enter your password\"\n                                    required\n                                />\n                            </div>\n                            <button type=\"submit\" className=\"btn\">\n                                Sign In\n                            </button>\n                        </form>\n                    </div>\n                </div>\n            </div>\n        </div>\n    );\n\x7d\n\nexport default App;"

/-- Static fallback code sample for framework "tailwind" (server.js fallbackTemplates). -/
def fallbackTailwindTemplate : String :=
  "<!DOCTYPE html>\n<html lang=\"en\">\n<head>\n    <meta charset=\"UTF-8\">\n    <meta name=\"viewport\" content=\"width=device-width, initial-scale=1.0\">\n    <title>Tailwind UI</title>\n    <script src=\"https://cdn.tailwindcss.com\"></script>\n</head>\n<body class=\"bg-gradient-to-br from-blue-400 to-purple-600 min-h-screen flex items-center justify-center p-4\">\n    <div class=\"max-w-md w-full\">\n        <div class=\"bg-white rounded-2xl shadow-xl overflow-hidden\">\n            <div class=\"bg-gradient-to-r from-blue-500 to-purple-600 px-6 py-8 text-center text-white\">\n                <h1 class=\"text-3xl font-bold mb-2\">Welcome Back</h1>\n                <p class=\"opacity-90\">Sign in to your account</p>\n            </div>\n            <div class=\"p-6\">\n                <form>\n                    <div class=\"mb-4\">\n                        <label for=\"email\" class=\"block text-sm font-medium text-gray-700 mb-2\">\n                            Email Address\n                        </label>\n                        <input\n                            type=\"email\"\n                            id=\"email\"\n                            class=\"w-full px-3 py-2 border border-gray-300 rounded-lg focus:outline-none focus:ring-2 focus:ring-blue-500 focus:border-transparent transition\"\n                            placeholder=\"Enter your email\"\n                        />\n                    </div>\n                    <div class=\"mb-6\">\n                        <label for=\"password\" class=\"block text-sm font-medium text-gray-700 mb-2\">\n                            Password\n                        </label>\n                        <input\n                            type=\"password\"\n                            id=\"password\"\n                            class=\"w-full px-3 py-2 border border-gray-300 rounded-lg focus:outline-none focus:ring-2 focus:ring-blue-500 focus:border-transparent transition\"\n                            placeholder=\"Enter your password\"\n                        />\n                    </div>\n                    <button\n                        type=\"submit\"\n                        class=\"w-full bg-gradient-to-r from-blue-500 to-purple-600 text-white py-3 px-4 rounded-lg font-semibold hover:from-blue-600 hover:to-purple-700 transition transform hover:-translate-y-0.5 focus:outline-none focus:ring-2 focus:ring-offset-2 focus:ring-blue-500\"\n                    >\n                        Sign In\n                    </button>\n                </form>\n            </div>\n        </div>\n    </div>\n</body>\n</html>"

/-- Static fallback code sample for framework "vue" (server.js fallbackTemplates). -/
def fallbackVueTemplate : String :=
  "<template>\n    <div id=\"app\">\n        <div class=\"container\">\n            <div class=\"card\">\n                <div class=\"card-header\">\n                    <h1>Welcome Back</h1>\n                    <p>Sign in to your account</p>\n                </div>\n                <div class=\"card-body\">\n                    <form @submit.prevent=\"handleSubmit\">\n                        <div class=\"form-group\">\n                            <label for=\"email\">Email Address</label>\n                            <input\n                                type=\"email\"\n                                id=\"email\"\n                                v-model=\"email\"\n                                placeholder=\"Enter your email\"\n                                required\n                            />\n                        </div>\n                        <div class=\"form-group\">\n                            <label for=\"password\">Password</label>\n                            <input\n                                type=\"password\"\n                                id=\"password\"\n                                v-model=\"password\"\n                                placeholder=\"Enter your password\"\n                                required\n                            />\n                        </div>\n                        <button type=\"submit\" class=\"btn\">\n                            Sign In\n                        </button>\n                    </form>\n                </div>\n            </div>\n        </div>\n    </div>\n</template>\n\n<script>\nexport default \x7b\n    name: \x27App\x27,\n    data() \x7b\n        return \x7b\n            email: \x27\x27,\n            password: \x27\x27\n        \x7d;\n    \x7d,\n    methods: \x7b\n        handleSubmit() \x7b\n            console.log(\x27Sign in attempt:\x27, \x7b\n                email: this.email,\n                password: this.password\n            \x7d);\n        \x7d\n    \x7d\n\x7d;\n</script>\n\n<style scoped>\n* \x7b\n    margin: 0;\n    padding: 0;\n    box-sizing: border-box;\n\x7d\n\n#app \x7b\n    font-family: -apple-system, BlinkMacSystemFont, \x27Segoe UI\x27, Roboto, sans-serif;\n    background: linear-gradient(135deg, #667eea 0%, #764ba2 100%);\n    min-height: 100vh;\n    display: flex;\n    align-items: center;\n    justify-content: center;\n    padding: 20px;\n\x7d\n\n.container \x7b\n    max-width: 400px;\n    width: 100%;\n\x7d\n\n.card \x7b\n    background: white;\n    border-radius: 12px;\n    box-shadow: 0 20px 40px rgba(0, 0, 0, 0.1);\n    overflow: hidden;\n\x7d\n\n.card-header \x7b\n    background: linear-gradient(135deg, #667eea 0%, #764ba2 100%);\n    color: white;\n    padding: 2rem;\n    text-align: center;\n\x7d\n\n.card-body \x7b\n    padding: 2rem;\n\x7d\n\n.form-group \x7b\n    margin-bottom: 1.5rem;\n\x7d\n\nlabel \x7b\n    display: block;\n    margin-bottom: 0.5rem;\n    font-weight: 500;\n    color: #333;\n\x7d\n\ninput \x7b\n    width: 100%;\n    padding: 12px;\n    border: 2px solid #e1e5e9;\n    border-radius: 8px;\n    font-size: 16px;\n    transition: border-color 0.3s;\n\x7d\n\ninput:focus \x7b\n    outline: none;\n    border-color: #667eea;\n\x7d\n\n.btn \x7b\n    width: 100%;\n    padding: 12px;\n    background: linear-gradient(135deg, #667eea 0%, #764ba2 100%);\n    color: white;\n    border: none;\n    border-radius: 8px;\n    font-size: 16px;\n    font-weight: 600;\n    cursor: pointer;\n    transition: transform 0.2s;\n\x7d\n\n.btn:hover \x7b\n    transform: translateY(-2px);\n\x7d\n\n@media (max-width: 480px) \x7b\n    .card-header, .card-body \x7b\n        padding: 1.5rem;\n    \x7d\n\x7d\n</style>"

/-- HTML shell for React preview, before the embedded code (App.jsx). -/
def reactShellPre : String :=
  "\n<!DOCTYPE html>\n<html>\n<head>\n  <meta charset=\"UTF-8\">\n  <meta name=\"viewport\" content=\"width=device-width, initial-scale=1.0\">\n  <title>Generated React Component</title>\n  <script src=\"https://unpkg.com/react@18/umd/react.development.js\"></script>\n  <script src=\"https://unpkg.com/react-dom@18/umd/react-dom.development.js\"></script>\n  <script src=\"https://unpkg.com/@babel/standalone/babel.min.js\"></script>\n  <style>\n    body \x7b font-family: Arial, sans-serif; padding: 20px; background: #f5f5f5; \x7d\n    * \x7b box-sizing: border-box; \x7d\n  </style>\n</head>\n<body>\n  <div id=\"root\"></div>\n  <script type=\"text/babel\">\n    "

/-- HTML shell for React preview, after the embedded code (App.jsx). -/
def reactShellPost : String :=
  "\n    ReactDOM.render(<App />, document.getElementById(\x27root\x27));\n  </script>\n</body>\n</html>"

/-- HTML shell for Vue preview, before the embedded code (App.jsx). -/
def vueShellPre : String :=
  "\n<!DOCTYPE html>\n<html>\n<head>\n  <meta charset=\"UTF-8\">\n  <meta name=\"viewport\" content=\"width=device-width, initial-scale=1.0\">\n  <title>Generated Vue Component</title>\n  <script src=\"https://unpkg.com/vue@3/dist/vue.global.js\"></script>\n  <style>\n    body \x7b font-family: Arial, sans-serif; padding: 20px; background: #f5f5f5; \x7d\n    * \x7b box-sizing: border-box; \x7d\n  </style>\n</head>\n<body>\n  <div id=\"app\"></div>\n  <script>\n    "

/-- HTML shell for Vue preview, after the embedded code (App.jsx). -/
def vueShellPost : String :=
  "\n    app.mount(\x27#app\x27);\n  </script>\n</body>\n</html>"

/-- HTML shell for Tailwind preview, before the embedded code (App.jsx). -/
def tailwindShellPre : String :=
  "\n<!DOCTYPE html>\n<html>\n<head>\n  <meta charset=\"UTF-8\">\n  <meta name=\"viewport\" content=\"width=device-width, initial-scale=1.0\">\n  <title>Generated Tailwind UI</title>\n  <script src=\"https://cdn.tailwindcss.com\"></script>\n</head>\n<body class=\"bg-gray-50\">\n  "

/-- HTML shell for Tailwind preview, after the embedded code (App.jsx). -/
def tailwindShellPost : String :=
  "\n</body>\n</html>"

/-- HTML shell for plain HTML preview, before the style-block injection point (App.jsx). -/
def htmlShellA : String :=
  "\n<!DOCTYPE html>\n<html>\n<head>\n  <meta charset=\"UTF-8\">\n  <meta name=\"viewport\" content=\"width=device-width, initial-scale=1.0\">\n  <title>Generated UI</title>\n  <style>\n    body \x7b \n      font-family: -apple-system, BlinkMacSystemFont, \x27Segoe UI\x27, sans-serif; \n      padding: 20px; \n      background: #f5f5f5;\n      margin: 0;\n    \x7d\n    * \x7b box-sizing: border-box; \x7d\n    "

/-- HTML shell for plain HTML preview, between the style injection point and the body injection point (App.jsx). -/
def htmlShellB : String :=
  "\n  </style>\n</head>\n<body>\n  "

/-- HTML shell for plain HTML preview, after the body injection point (App.jsx). -/
def htmlShellC : String :=
  "\n</body>\n</html>"

/-! ### Result normalizer (App.jsx, extractHTMLFromCode line 145)

    let cleanCode = code.replace(/```(?:html|javascript|jsx)?\n?/g, '')
                        .replace(/```/g, '').trim();
-/

/-- Consume the optional language tag after a matched triple backtick
(alternation order html, javascript, jsx, or nothing). -/
def dropTag (cs : List Char) : List Char :=
  if leadsWith ("html".data) cs then cs.drop 4
  else if leadsWith ("javascript".data) cs then cs.drop 10
  else if leadsWith ("jsx".data) cs then cs.drop 3
  else cs

/-- Consume one optional newline. -/
def dropNewline : List Char → List Char
  | c :: rest => if c = '\n' then rest else c :: rest
  | [] => []

/-- After a matched triple backtick the first regex consumes an optional
language tag and then an optional newline. -/
def fenceTagTail (cs : List Char) : List Char := dropNewline (dropTag cs)

theorem dropTag_length_le (cs : List Char) : (dropTag cs).length ≤ cs.length := by
  unfold dropTag
  have h3 := List.length_drop 3 cs
  have h4 := List.length_drop 4 cs
  have h10 := List.length_drop 10 cs
  split
  · omega
  · split
    · omega
    · split
      · omega
      · exact le_rfl

theorem dropNewline_length_le (cs : List Char) : (dropNewline cs).length ≤ cs.length := by
  cases cs with
  | nil => exact le_rfl
  | cons c rest =>
    simp only [dropNewline]
    split <;> simp

theorem fenceTagTail_length_le (cs : List Char) : (fenceTagTail cs).length ≤ cs.length :=
  le_trans (dropNewline_length_le (dropTag cs)) (dropTag_length_le cs)

/-- First replace: remove every leftmost occurrence of a triple backtick
followed by an optional language tag and an optional newline. -/
def stripFences : List Char → List Char
  | [] => []
  | [c] => [c]
  | [c, d] => [c, d]
  | c :: d :: e :: rest =>
    if isTick c && isTick d && isTick e then stripFences (fenceTagTail rest)
    else c :: stripFences (d :: e :: rest)
termination_by cs => cs.length
decreasing_by
  · have := fenceTagTail_length_le rest
    simp only [List.length_cons]
    omega
  · simp only [List.length_cons]
    omega

/-- Second replace: remove every leftmost occurrence of a bare triple backtick. -/
def stripTicks : List Char → List Char
  | [] => []
  | [c] => [c]
  | [c, d] => [c, d]
  | c :: d :: e :: rest =>
    if isTick c && isTick d && isTick e then stripTicks rest
    else c :: stripTicks (d :: e :: rest)

/-- The result normalizer: strip fences, strip remaining triple backticks,
then trim, exactly as the first line of extractHTMLFromCode does. -/
def cleanCode (code : String) : String :=
  ⟨jsTrim (stripTicks (stripFences code.data))⟩

/-! ### Preview document builder (App.jsx, extractHTMLFromCode lines 143-244) -/

/-- The style-block injection point of the plain-HTML preview shell:
nothing if the cleaned code already carries a style closing tag, the whole
cleaned code if it contains a brace, nothing otherwise. -/
def htmlStyleInjection (c : String) : String :=
  if occursString "</style>" c then ""
  else if occursString "\x7b" c then c
  else ""

/-- The body injection point of the plain-HTML preview shell: the cleaned
code itself when it contains markup, otherwise the code wrapped in a div. -/
def htmlBodyInjection (c : String) : String :=
  if occursString "<" c then c
  else "<div class=\"container\">" ++ c ++ "</div>"

/-- The preview document builder, App.jsx extractHTMLFromCode: normalize,
pass complete documents through, otherwise wrap according to the framework. -/
def extractHTMLFromCode (framework : String) (code : String) : String :=
  let c := cleanCode code
  if occursString "<!DOCTYPE html>" c || occursString "<html" c then c
  else if framework = "react" then reactShellPre ++ c ++ reactShellPost
  else if framework = "vue" then vueShellPre ++ c ++ vueShellPost
  else if framework = "tailwind" then tailwindShellPre ++ c ++ tailwindShellPost
  else htmlShellA ++ htmlStyleInjection c ++ htmlShellB ++ htmlBodyInjection c ++ htmlShellC

/-! ### Prompt builder (server.js lines 86-120) -/

/-- The framework instruction table, server.js frameworkPrompts. A missing
key yields none (JS: undefined). -/
def frameworkPrompts (framework : String) : Option String :=
  if framework = "html" then some htmlFrameworkPrompt
  else if framework = "tailwind" then some tailwindFrameworkPrompt
  else if framework = "react" then some reactFrameworkPrompt
  else if framework = "vue" then some vueFrameworkPrompt
  else none

/-- The feature instruction table combined with the || fallback of
server.js line 100: featurePrompts[feature] || yields the empty string for
any unknown feature id. -/
def featurePrompts (feature : String) : String :=
  if feature = "responsive" then responsiveFeaturePrompt
  else if feature = "accessible" then accessibleFeaturePrompt
  else if feature = "interactive" then interactiveFeaturePrompt
  else if feature = "modern" then modernFeaturePrompt
  else ""

/-- featureText (server.js line 100): per-feature instructions joined by a
single space. -/
def featureText (featureList : List String) : String :=
  joinWith " " (featureList.map featurePrompts)

/-- A JS template literal renders an undefined interpolated value as the
literal text undefined; this makes that rendering explicit. -/
def renderedLookup (v : Option String) : String := v.getD "undefined"

/-- The prompt template of server.js lines 102-120 with its two
interpolations spelled out. -/
def buildPrompt (framework : String) (featureList : List String) : String :=
  promptHead ++ renderedLookup (frameworkPrompts framework) ++ promptMid
    ++ featureText featureList ++ promptTail

/-- The degraded text-only prompt of server.js lines 165-176. -/
def textOnlyPrompt (prompt framework : String) : String :=
  textPromptHead ++ prompt ++ textPromptMid ++ framework ++ textPromptTail

/-! ### Image encoder (server.js fileToGenerativePart) -/

/-- The base64 alphabet. -/
def base64Chars : String :=
  "ABCDEFGHIJKLMNOPQRSTUVWXYZabcdefghijklmnopqrstuvwxyz0123456789+/"

/-- The base64 digit for a 6-bit value. -/
def base64Char (n : Nat) : Char := base64Chars.data.getD n (Char.ofNat 65)

/-- Standard base64 with padding, as Buffer.prototype.toString with the
base64 encoding produces. -/
def base64Encode : List UInt8 → List Char
  | [] => []
  | [a] =>
    [base64Char (a.toNat / 4), base64Char (a.toNat % 4 * 16), '=', '=']
  | [a, b] =>
    [base64Char (a.toNat / 4), base64Char (a.toNat % 4 * 16 + b.toNat / 16),
     base64Char (b.toNat % 16 * 4), '=']
  | a :: b :: c :: rest =>
    base64Char (a.toNat / 4) :: base64Char (a.toNat % 4 * 16 + b.toNat / 16)
      :: base64Char (b.toNat % 16 * 4 + c.toNat / 64) :: base64Char (c.toNat % 64)
      :: base64Encode rest

/-- The inline-data part sent to the Gemini SDK. -/
structure InlineImagePart where
  data : String
  mimeType : String
deriving DecidableEq

/-- server.js fileToGenerativePart: base64 payload tagged with the MIME type. -/
def fileToGenerativePart (buffer : List UInt8) (mimeType : String) : InlineImagePart :=
  ⟨⟨base64Encode buffer⟩, mimeType⟩

/-! ### Provider orchestrator (server.js, the generate-code route) -/

/-- req.file as multer memory storage provides it: the raw bytes and the
declared MIME type (the file size is the buffer length). -/
structure UploadedFile where
  buffer : List UInt8
  mimetype : String
deriving DecidableEq

/-- A generation request issued to the Gemini SDK: either a vision call
carrying the prompt and the encoded image, or a text-only call. -/
inductive GenPayload where
  | visionReq (prompt : String) (image : InlineImagePart)
  | textReq (prompt : String)
deriving DecidableEq

/-- server.js AVAILABLE_MODELS. -/
def AVAILABLE_MODELS : List String := ["gemini-pro", "gemini-1.0-pro"]

/-- The JSON body of a successful generation response (timestamp omitted:
it is the only impure field and no verified property concerns it). -/
structure GenerationResult where
  success : Bool
  code : String
  framework : String
  features : List String
  provider : String
  model : String
  vision : Bool
  note : Option String
deriving DecidableEq

/-- A response body: either an error object or a generation result. -/
inductive ResponseBody where
  | errMsg (error : String)
  | result (r : GenerationResult)
deriving DecidableEq

/-- An HTTP response with its status code. -/
structure HttpResponse where
  status : Nat
  body : ResponseBody
deriving DecidableEq

/-- server.js fallbackTemplates lookup with its || fallback to the html
template for unknown keys. -/
def fallbackTemplates (framework : String) : String :=
  if framework = "html" then fallbackHtmlTemplate
  else if framework = "react" then fallbackReactTemplate
  else if framework = "tailwind" then fallbackTailwindTemplate
  else if framework = "vue" then fallbackVueTemplate
  else fallbackHtmlTemplate

/-- The generation result produced by generateFallbackCode (server.js 587-599). -/
def fallbackResult (framework : String) (features : List String) : GenerationResult :=
  ⟨true, fallbackTemplates framework, framework, features, "fallback-template",
   "none", false, some "Using fallback template - check your Gemini API configuration"⟩

/-- server.js generateFallbackCode: respond 200 with the static template. -/
def generateFallbackCode (framework : String) (features : List String) : HttpResponse :=
  ⟨200, ResponseBody.result (fallbackResult framework features)⟩

/-- The model loop of the route (server.js lines 125-207). The SDK is the
call oracle; an ok result is the generated text, an error is any thrown
error. For each candidate model: try vision; on any vision error, try
text-only within the same model; if that fails too, advance to the next
candidate; when all candidates are exhausted, fall back to the template. -/
def tryModels (call : String → GenPayload → Except String String)
    (framework : String) (featureList : List String)
    (prompt : String) (imagePart : InlineImagePart) :
    List String → HttpResponse
  | [] => generateFallbackCode framework featureList
  | modelName :: restModels =>
    match call modelName (GenPayload.visionReq prompt imagePart) with
    | Except.ok generatedCode =>
      ⟨200, ResponseBody.result
        ⟨true, generatedCode, framework, featureList, "google-gemini", modelName,
         true, none⟩⟩
    | Except.error _ =>
      match call modelName (GenPayload.textReq (textOnlyPrompt prompt framework)) with
      | Except.ok generatedCode =>
        ⟨200, ResponseBody.result
          ⟨true, generatedCode, framework, featureList, "google-gemini", modelName,
           false, some "Generated generic code (vision not available)"⟩⟩
      | Except.error _ =>
        tryModels call framework featureList prompt imagePart restModels

/-! ### The request handler and the Express layer model -/

/-- The multipart request as the route sees it: req.file plus the two
form fields of req.body. -/
structure GenerateCodeRequest where
  upload : Option UploadedFile
  framework : Option String
  features : Option String
deriving DecidableEq

/-- What the route produces: an HTTP response, or no response at all when
the async handler's promise rejects with nothing to catch it. -/
inductive Outcome where
  | resp (response : HttpResponse)
  | unhandledRejection (message : String)
deriving DecidableEq

/-- HTTP status of an outcome, when there is one. -/
def statusOf : Outcome → Option Nat
  | Outcome.resp r => some r.status
  | Outcome.unhandledRejection _ => none

/-- The body of the generate-code route (server.js lines 72-217).
jsonParse is the JSON.parse oracle (restricted to string-array results,
which is what the frontend submits). Note the outer catch re-reads
req.body and calls JSON.parse on the same features text a second time;
when the first parse threw, the second throws identically and the
rejection leaves the handler with no response sent. -/
def generateCodeHandler (jsonParse : String → Except String (List String))
    (call : String → GenPayload → Except String String)
    (req : GenerateCodeRequest) : Outcome :=
  match req.upload with
  | none => Outcome.resp ⟨400, ResponseBody.errMsg "No image file provided"⟩
  | some file =>
    let framework := req.framework.getD "html"
    let features := req.features.getD "[]"
    match jsonParse features with
    | Except.ok featureList =>
      let prompt := buildPrompt framework featureList
      let imagePart := fileToGenerativePart file.buffer file.mimetype
      Outcome.resp (tryModels call framework featureList prompt imagePart AVAILABLE_MODELS)
    | Except.error _ =>
      match jsonParse features with
      | Except.ok featureList => Outcome.resp (generateFallbackCode framework featureList)
      | Except.error message => Outcome.unhandledRejection message

/-! ### Express dispatch (the app stack of server.js lines 22-72)

The app registers, in order: cors / json / urlencoded (out of scope, they
never error for these requests and are omitted), the error-handling
middleware of lines 46-53, and then the generate-code route consisting of
the multer upload middleware and the async handler. Express 4 semantics:
an error raised by a layer is handled by the next error-handling layer
registered after that layer, or by the Express default handler (500)
when none follows; a rejected async handler produces no response. -/

/-- An error travelling through next(err): multer errors carry a code,
other errors only a message. -/
structure RoutingError where
  isMulterError : Bool
  code : String
  message : String
deriving DecidableEq

/-- The error-handling middleware of server.js lines 46-53. -/
def errorHandlingMiddleware (e : RoutingError) : HttpResponse :=
  if e.isMulterError && e.code == "LIMIT_FILE_SIZE" then
    ⟨400, ResponseBody.errMsg "File too large. Maximum size is 10MB."⟩
  else ⟨500, ResponseBody.errMsg e.message⟩

/-- The multer fileSize limit (server.js line 34). -/
def MAX_FILE_SIZE : Nat := 10 * 1024 * 1024

/-- upload.single (server.js lines 31-43): pass requests without a file
through untouched; reject non-image MIME types via the fileFilter (a plain
Error) and oversized files via the size limit (a MulterError with code
LIMIT_FILE_SIZE and message File too large). -/
def multerSingleImage (req : GenerateCodeRequest) :
    Sum RoutingError GenerateCodeRequest :=
  match req.upload with
  | none => Sum.inr req
  | some file =>
    if leadsWith ("image/".data) file.mimetype.data then
      if MAX_FILE_SIZE < file.buffer.length then
        Sum.inl ⟨true, "LIMIT_FILE_SIZE", "File too large"⟩
      else Sum.inr req
    else Sum.inl ⟨false, "", "Only image files are allowed!"⟩

/-- One layer of the Express stack. -/
inductive Layer where
  | middleware (run : GenerateCodeRequest → Sum RoutingError GenerateCodeRequest)
  | errorware (run : RoutingError → HttpResponse)
  | route (run : GenerateCodeRequest → Outcome)

/-- Error dispatch: scan the remaining stack for the next error-handling
layer; Express's default handler answers 500 when none is found. -/
def dispatchError : List Layer → RoutingError → Outcome
  | [], e => Outcome.resp ⟨500, ResponseBody.errMsg e.message⟩
  | Layer.errorware h :: _, e => Outcome.resp (h e)
  | Layer.middleware _ :: rest, e => dispatchError rest e
  | Layer.route _ :: rest, e => dispatchError rest e

/-- Normal dispatch: run layers in order, switching to error dispatch on
the rest of the stack when a layer raises. -/
def dispatch : List Layer → GenerateCodeRequest → Outcome
  | [], _ => Outcome.resp ⟨404, ResponseBody.errMsg "Cannot POST /api/generate-code"⟩
  | Layer.middleware f :: rest, req =>
    match f req with
    | Sum.inr req2 => dispatch rest req2
    | Sum.inl e => dispatchError rest e
  | Layer.errorware _ :: rest, req => dispatch rest req
  | Layer.route h :: _, req => h req

/-- The layers a POST to /api/generate-code traverses, in the registration
order of server.js: the error-handling middleware is registered at line 46,
BEFORE the route of line 72, so it can never receive the route's errors. -/
def generateCodeStack (jsonParse : String → Except String (List String))
    (call : String → GenPayload → Except String String) : List Layer :=
  [Layer.errorware errorHandlingMiddleware,
   Layer.middleware multerSingleImage,
   Layer.route (generateCodeHandler jsonParse call)]

/-- End-to-end behaviour of POST /api/generate-code. -/
def postGenerateCode (jsonParse : String → Except String (List String))
    (call : String → GenPayload → Except String String)
    (req : GenerateCodeRequest) : Outcome :=
  dispatch (generateCodeStack jsonParse call) req

/-! ### Concrete oracles and requests used by closed instantiations -/

/-- A call oracle that always throws, instantiating an exhausted model list. -/
def alwaysFailCall : String → GenPayload → Except String String :=
  fun _ _ => Except.error "quota exceeded"

/-- A call oracle whose vision calls throw and whose text-only calls succeed. -/
def visionlessCall : String → GenPayload → Except String String :=
  fun _ payload =>
    match payload with
    | GenPayload.visionReq _ _ => Except.error "vision not supported"
    | GenPayload.textReq _ => Except.ok "<div>generic component</div>"

/-- A JSON.parse oracle for concrete requests: accepts the two feature
texts the instantiations use and rejects everything else. -/
def sampleJsonParse : String → Except String (List String) :=
  fun s =>
    if s = "[]" then Except.ok []
    else if s = "[\"responsive\"]" then Except.ok ["responsive"]
    else Except.error "Unexpected token"

/-- A small four-byte upload declared as a PNG. -/
def samplePng : UploadedFile := ⟨[137, 80, 78, 71], "image/png"⟩

/-- An upload one byte over the 10 MiB multer limit. -/
def oversizedPng : UploadedFile := ⟨List.replicate (10 * 1024 * 1024 + 1) 0, "image/png"⟩

/-! ### Fixed segments of the prompt, named for the occurrence analysis -/

/-- The four feature ids that have instructions. -/
def knownFeatureIds : List String := ["responsive", "accessible", "interactive", "modern"]

/-- Six spaces: the indentation of the prompt template lines. -/
def sixSpaces : String := "      "

/-- The newline-free first text line of the prompt template. -/
def promptHeadLine : String :=
  "      You are an expert frontend developer. Convert the provided UI design to clean, production-ready code."

/-- promptTail without its leading newline. -/
def promptTailRest : String :=
  "      \n      IMPORTANT GUIDELINES:\n      1. Create pixel-perfect, clean code that matches the design exactly\n      2. Use semantic HTML5 elements\n      3. Make it fully responsive\n      4. Include proper accessibility attributes\n      5. Use modern CSS practices (Flexbox/Grid)\n      6. Add comments for important sections\n      7. Ensure cross-browser compatibility\n      8. Use appropriate colors, spacing, and typography\n      9. Export complete, runnable code\n      10. If using Tailwind, include the CDN link: <script src=\"https://cdn.tailwindcss.com\"></script>\n      \n      Return only the code without any explanations or markdown formatting.\n    "

/-- Every text the framework slot of the prompt can render to. -/
def fwInstList : List String :=
  [htmlFrameworkPrompt, tailwindFrameworkPrompt, reactFrameworkPrompt,
   vueFrameworkPrompt, "undefined"]

/-! ### Predicates for the fence-stripping analysis -/

/-- Does the list contain three consecutive backticks? -/
def hasTriple : List Char → Bool
  | c :: d :: e :: rest => (isTick c && isTick d && isTick e) || hasTriple (d :: e :: rest)
  | _ => false

/-- Number of leading backticks. -/
def leadTicks : List Char → Nat
  | c :: cs => if isTick c then leadTicks cs + 1 else 0
  | [] => 0

/-- Do the first two characters exist and are they both backticks? -/
def ticksPair : List Char → Bool
  | d :: e :: _ => isTick d && isTick e
  | _ => false

/-- Three consecutive backticks, the core of both fence regexes. -/
def tripleTicks : List Char := [tick, tick, tick]

/-! ### Lemmas about substring occurrence -/

theorem leadsWith_iff (p : List Char) : ∀ s : List Char,
    leadsWith p s = true ↔ ∃ t, s = p ++ t := by
  induction p with
  | nil => intro s; simp [leadsWith]
  | cons q p ih =>
    intro s
    cases s with
    | nil => simp [leadsWith]
    | cons c cs =>
      simp only [leadsWith, Bool.and_eq_true, beq_iff_eq, ih, List.cons_append,
        List.cons.injEq]
      constructor
      · rintro ⟨rfl, t, rfl⟩; exact ⟨t, rfl, rfl⟩
      · rintro ⟨t, rfl, rfl⟩; exact ⟨rfl, t, rfl⟩

theorem occursIn_iff (pat : List Char) : ∀ s : List Char,
    occursIn pat s = true ↔ Occurs pat s := by
  intro s
  induction s with
  | nil =>
    simp only [occursIn, List.isEmpty_iff, Occurs]
    constructor
    · rintro rfl; exact ⟨[], [], rfl⟩
    · rintro ⟨a, b, h⟩
      rcases List.append_eq_nil.mp h.symm with ⟨h1, h2⟩
      exact (List.append_eq_nil.mp h1).2
  | cons c cs ih =>
    simp only [occursIn, Bool.or_eq_true, leadsWith_iff, ih, Occurs]
    constructor
    · rintro (⟨t, ht⟩ | ⟨a, b, rfl⟩)
      · exact ⟨[], t, by simpa using ht⟩
      · exact ⟨c :: a, b, rfl⟩
    · rintro ⟨a, b, h⟩
      cases a with
      | nil => exact Or.inl ⟨b, by simpa using h⟩
      | cons d a =>
        simp only [List.cons_append, List.cons.injEq] at h
        exact Or.inr ⟨a, b, h.2⟩

theorem occurs_self (p : List Char) : Occurs p p := ⟨[], [], by simp⟩

theorem occurs_wrap {p m : List Char} (a b : List Char) (h : Occurs p m) :
    Occurs p (a ++ m ++ b) := by
  rcases h with ⟨x, y, rfl⟩
  exact ⟨a ++ x, y ++ b, by simp⟩

theorem occurs_cons {p t : List Char} (d : Char) (h : Occurs p t) :
    Occurs p (d :: t) := by
  rcases h with ⟨x, y, rfl⟩
  exact ⟨d :: x, y, rfl⟩

theorem occurs_trans {w p s : List Char} (h1 : Occurs w p) (h2 : Occurs p s) :
    Occurs w s := by
  rcases h1 with ⟨x, y, rfl⟩
  rcases h2 with ⟨u, v, rfl⟩
  exact ⟨u ++ x, y ++ v, by simp⟩

theorem occurs_nil {p : List Char} (h : Occurs p []) : p = [] := by
  rcases h with ⟨a, b, hab⟩
  rcases List.append_eq_nil.mp hab.symm with ⟨h1, _⟩
  exact (List.append_eq_nil.mp h1).2

/-- If the whole text starts with the pattern and the pattern avoids the
separator character, the front block starts with the pattern. -/
theorem leads_stops {c : Char} : ∀ p a b t : List Char, c ∉ p →
    a ++ c :: b = p ++ t → ∃ u, a = p ++ u := by
  intro p
  induction p with
  | nil => intro a b t _ _; exact ⟨a, rfl⟩
  | cons q p' ih =>
    intro a b t hc h
    cases a with
    | nil =>
      simp only [List.nil_append, List.cons_append, List.cons.injEq] at h
      exact absurd (h.1 ▸ List.mem_cons_self q p') hc
    | cons d a' =>
      simp only [List.cons_append, List.cons.injEq] at h
      rcases h with ⟨rfl, h2⟩
      have hc' : c ∉ p' := fun hmem => hc (List.mem_cons_of_mem d hmem)
      rcases ih a' b t hc' h2 with ⟨u, rfl⟩
      exact ⟨u, rfl⟩

/-- An occurrence that avoids the separator character lies wholly on one
side of it. -/
theorem occurs_split {p : List Char} {c : Char} (hc : c ∉ p) :
    ∀ a b : List Char, Occurs p (a ++ c :: b) → Occurs p a ∨ Occurs p b := by
  intro a
  induction a with
  | nil =>
    intro b h
    rcases h with ⟨x, y, hxy⟩
    cases x with
    | nil =>
      cases p with
      | nil => exact Or.inl ⟨[], [], rfl⟩
      | cons q p' =>
        simp only [List.nil_append, List.cons_append, List.cons.injEq] at hxy
        exact absurd (hxy.1 ▸ List.mem_cons_self q p') hc
    | cons e x' =>
      simp only [List.nil_append, List.cons_append, List.cons.injEq] at hxy
      exact Or.inr ⟨x', y, hxy.2⟩
  | cons d a' ih =>
    intro b h
    rcases h with ⟨x, y, hxy⟩
    cases x with
    | nil =>
      simp only [List.nil_append] at hxy
      rcases leads_stops p (d :: a') b y hc hxy with ⟨u, hu⟩
      exact Or.inl ⟨[], u, by simpa using hu⟩
    | cons e x' =>
      simp only [List.cons_append, List.cons.injEq] at hxy
      rcases hxy with ⟨rfl, h2⟩
      rcases ih b ⟨x', y, h2⟩ with hl | hr
      · exact Or.inl (occurs_cons d hl)
      · exact Or.inr hr

/-- An occurrence of a nonempty pattern avoiding every character of the
front block lies wholly in the back block. -/
theorem occurs_skip_front {p : List Char} (hne : p ≠ []) :
    ∀ a b : List Char, (∀ c ∈ a, c ∉ p) → Occurs p (a ++ b) → Occurs p b := by
  intro a
  induction a with
  | nil => intro b _ h; simpa using h
  | cons d a' ih =>
    intro b hav h
    rcases h with ⟨x, y, hxy⟩
    cases x with
    | nil =>
      cases p with
      | nil => exact absurd rfl hne
      | cons q p' =>
        simp only [List.nil_append, List.cons_append, List.cons.injEq] at hxy
        rcases hxy with ⟨rfl, -⟩
        exact absurd (List.mem_cons_self d p') (hav d (List.mem_cons_self d a'))
    | cons e x' =>
      simp only [List.cons_append, List.cons.injEq] at hxy
      rcases hxy with ⟨-, h2⟩
      exact ih b (fun c hcm => hav c (List.mem_cons_of_mem d hcm)) ⟨x', y, h2⟩

/-! ### Idempotence machinery for the result normalizer -/

theorem ticksPair_leadTicks {l : List Char} (h : ticksPair l = true) : 2 ≤ leadTicks l := by
  match l with
  | [] => simp [ticksPair] at h
  | [d] => simp [ticksPair] at h
  | d :: e :: r =>
    simp only [ticksPair, Bool.and_eq_true] at h
    simp [leadTicks, h.1, h.2]

theorem ticksPair_false_of_le {l : List Char} (h : leadTicks l ≤ 1) : ticksPair l = false := by
  cases hx : ticksPair l
  · rfl
  · exact absurd (ticksPair_leadTicks hx) (by omega)

theorem hasTriple_cons (c : Char) (l : List Char) :
    hasTriple (c :: l) = ((isTick c && ticksPair l) || hasTriple l) := by
  match l with
  | [] => simp [hasTriple, ticksPair]
  | [d] => simp [hasTriple, ticksPair]
  | d :: e :: r => simp [hasTriple, ticksPair, Bool.and_assoc]

/-- Strong induction on list length, specialised to character lists. -/
theorem lengthStrongInduction {P : List Char → Prop}
    (step : ∀ cs : List Char, (∀ ds : List Char, ds.length < cs.length → P ds) → P cs) :
    ∀ cs, P cs := by
  have h : ∀ n, ∀ ds : List Char, ds.length ≤ n → P ds := by
    intro n
    induction n with
    | zero =>
      intro ds hds
      exact step ds (fun es hes => absurd hes (by omega))
    | succ n ihn => intro ds hds; exact step ds (fun es hes => ihn es (by omega))
  intro cs
  exact h cs.length cs le_rfl

theorem leadTicks_stripTicks : ∀ cs, leadTicks (stripTicks cs) ≤ leadTicks cs ∧
    hasTriple (stripTicks cs) = false := by
  apply lengthStrongInduction
  intro cs ih
  match cs with
  | [] => exact ⟨le_rfl, rfl⟩
  | [c] => exact ⟨le_rfl, rfl⟩
  | [c, d] => exact ⟨le_rfl, rfl⟩
  | c :: d :: e :: rest =>
    by_cases h : (isTick c && isTick d && isTick e) = true
    · have hrec := ih rest (by simp; omega)
      have hstep : stripTicks (c :: d :: e :: rest) = stripTicks rest := by
        simp [stripTicks, h]
      rcases Bool.and_eq_true_iff.mp h with ⟨h1, he⟩
      rcases Bool.and_eq_true_iff.mp h1 with ⟨hc, hd⟩
      have e2 : leadTicks (c :: d :: e :: rest) = leadTicks rest + 3 := by
        simp [leadTicks, hc, hd, he]
      rw [hstep, e2]
      exact ⟨by have := hrec.1; omega, hrec.2⟩
    · have h' : (isTick c && isTick d && isTick e) = false := by
        cases hx : (isTick c && isTick d && isTick e)
        · rfl
        · exact absurd hx h
      have hrec := ih (d :: e :: rest) (by simp)
      have hstep : stripTicks (c :: d :: e :: rest) = c :: stripTicks (d :: e :: rest) := by
        simp [stripTicks, h']
      rw [hstep]
      by_cases hc : isTick c = true
      · have hde : leadTicks (d :: e :: rest) ≤ 1 := by
          have : (isTick d && isTick e) = false := by
            cases hd : isTick d <;> cases he : isTick e <;>
              simp [hc, hd, he] at h' ⊢
          cases hd : isTick d <;> cases he : isTick e <;>
            simp [hd, he] at this ⊢ <;> simp [leadTicks, hd, he]
        have e1 : leadTicks (c :: stripTicks (d :: e :: rest))
            = leadTicks (stripTicks (d :: e :: rest)) + 1 := by
          simp [leadTicks, hc]
        have e2 : leadTicks (c :: d :: e :: rest) = leadTicks (d :: e :: rest) + 1 := by
          simp [leadTicks, hc]
        constructor
        · rw [e1, e2]
          have := hrec.1
          omega
        · rw [hasTriple_cons, hrec.2, Bool.or_false]
          have : ticksPair (stripTicks (d :: e :: rest)) = false :=
            ticksPair_false_of_le (le_trans hrec.1 hde)
          simp [this]
      · have hc' : isTick c = false := by
          cases hx : isTick c
          · rfl
          · exact absurd hx hc
        constructor
        · simp [leadTicks, hc']
        · rw [hasTriple_cons, hrec.2, Bool.or_false, hc']
          simp

theorem stripTicks_noTriple (cs : List Char) : hasTriple (stripTicks cs) = false :=
  (leadTicks_stripTicks cs).2

theorem stripTicks_id : ∀ cs, hasTriple cs = false → stripTicks cs = cs := by
  apply lengthStrongInduction (P := fun cs => hasTriple cs = false → stripTicks cs = cs)
  intro cs ih h
  match cs with
  | [] => rfl
  | [c] => rfl
  | [c, d] => rfl
  | c :: d :: e :: rest =>
    simp only [hasTriple, Bool.or_eq_false_iff] at h
    have := ih (d :: e :: rest) (by simp) h.2
    simp [stripTicks, h.1, this]

theorem stripFences_id : ∀ cs, hasTriple cs = false → stripFences cs = cs := by
  apply lengthStrongInduction (P := fun cs => hasTriple cs = false → stripFences cs = cs)
  intro cs ih h
  match cs with
  | [] => simp [stripFences]
  | [c] => simp [stripFences]
  | [c, d] => simp [stripFences]
  | c :: d :: e :: rest =>
    simp only [hasTriple, Bool.or_eq_false_iff] at h
    have := ih (d :: e :: rest) (by simp) h.2
    rw [stripFences]
    simp [h.1, this]

/-! ### Trim idempotence and assembly of normalizer idempotence -/

theorem dropWhile_head_false (p : Char → Bool) : ∀ l : List Char,
    l.dropWhile p = [] ∨ ∃ c t, l.dropWhile p = c :: t ∧ p c = false := by
  intro l
  induction l with
  | nil => exact Or.inl rfl
  | cons c t ih =>
    cases hc : p c
    · exact Or.inr ⟨c, t, by simp [List.dropWhile_cons, hc], hc⟩
    · simpa [List.dropWhile_cons, hc] using ih

theorem dropWhile_of_head_false {p : Char → Bool} {c : Char} {t : List Char}
    (hc : p c = false) : (c :: t).dropWhile p = c :: t := by
  simp [List.dropWhile_cons, hc]

theorem dropWhile_idem (p : Char → Bool) (l : List Char) :
    (l.dropWhile p).dropWhile p = l.dropWhile p := by
  rcases dropWhile_head_false p l with h | ⟨c, t, h, hc⟩
  · rw [h]; rfl
  · rw [h, dropWhile_of_head_false hc]

theorem jsTrim_decomp (cs : List Char) : ∃ x y, cs = x ++ jsTrim cs ++ y := by
  refine ⟨cs.takeWhile jsWhitespace,
    ((cs.dropWhile jsWhitespace).reverse.takeWhile jsWhitespace).reverse, ?_⟩
  have h1 : cs.takeWhile jsWhitespace ++ cs.dropWhile jsWhitespace = cs :=
    List.takeWhile_append_dropWhile jsWhitespace cs
  have h2 : (cs.dropWhile jsWhitespace).reverse.takeWhile jsWhitespace
      ++ (cs.dropWhile jsWhitespace).reverse.dropWhile jsWhitespace
      = (cs.dropWhile jsWhitespace).reverse :=
    List.takeWhile_append_dropWhile jsWhitespace (cs.dropWhile jsWhitespace).reverse
  have h3 := congrArg List.reverse h2
  simp only [List.reverse_append, List.reverse_reverse] at h3
  conv_lhs => rw [← h1, ← h3]
  simp [jsTrim, List.append_assoc]

theorem jsTrim_idem (cs : List Char) : jsTrim (jsTrim cs) = jsTrim cs := by
  have hbdef : (cs.dropWhile jsWhitespace).reverse.dropWhile jsWhitespace
      = (cs.dropWhile jsWhitespace).reverse.dropWhile jsWhitespace := rfl
  have h2 : (cs.dropWhile jsWhitespace).reverse.takeWhile jsWhitespace
      ++ (cs.dropWhile jsWhitespace).reverse.dropWhile jsWhitespace
      = (cs.dropWhile jsWhitespace).reverse :=
    List.takeWhile_append_dropWhile jsWhitespace (cs.dropWhile jsWhitespace).reverse
  have h3 := congrArg List.reverse h2
  simp only [List.reverse_append, List.reverse_reverse] at h3
  -- h3 : b.reverse ++ T.reverse = a  (with a := dropWhile cs, b := dropWhile a.reverse)
  have hA : ((cs.dropWhile jsWhitespace).reverse.dropWhile jsWhitespace).reverse.dropWhile
      jsWhitespace
      = ((cs.dropWhile jsWhitespace).reverse.dropWhile jsWhitespace).reverse := by
    cases hbr : ((cs.dropWhile jsWhitespace).reverse.dropWhile jsWhitespace).reverse with
    | nil => simp
    | cons c0 t0 =>
      rcases dropWhile_head_false jsWhitespace cs with hnil | ⟨c, t, hct, hc⟩
      · rw [hnil] at hbr
        simp at hbr
      · rw [hbr] at h3
        rw [hct] at h3
        simp only [List.cons_append, List.cons.injEq] at h3
        have hc0 : jsWhitespace c0 = false := by rw [h3.1]; exact hc
        exact dropWhile_of_head_false hc0
  have hB : ((cs.dropWhile jsWhitespace).reverse.dropWhile jsWhitespace).dropWhile
      jsWhitespace
      = (cs.dropWhile jsWhitespace).reverse.dropWhile jsWhitespace :=
    dropWhile_idem jsWhitespace _
  show (((((cs.dropWhile jsWhitespace).reverse.dropWhile jsWhitespace).reverse).dropWhile
      jsWhitespace).reverse.dropWhile jsWhitespace).reverse
      = ((cs.dropWhile jsWhitespace).reverse.dropWhile jsWhitespace).reverse
  rw [hA, List.reverse_reverse, hB]

theorem occurs_cons_iff (pat : List Char) (c : Char) (cs : List Char) :
    Occurs pat (c :: cs) ↔ (∃ t, c :: cs = pat ++ t) ∨ Occurs pat cs := by
  rw [← occursIn_iff, occursIn, Bool.or_eq_true, leadsWith_iff, occursIn_iff]

theorem hasTriple_iff : ∀ l : List Char, hasTriple l = true ↔ Occurs tripleTicks l := by
  apply lengthStrongInduction
  intro l ih
  match l with
  | [] =>
    simp only [hasTriple]
    constructor
    · intro h; exact absurd h (by simp)
    · intro h; exact absurd (occurs_nil h) (by simp [tripleTicks])
  | [c] =>
    simp only [hasTriple]
    constructor
    · intro h; exact absurd h (by simp)
    · rintro ⟨a, b, h⟩
      have := congrArg List.length h
      simp [tripleTicks] at this
      omega
  | [c, d] =>
    simp only [hasTriple]
    constructor
    · intro h; exact absurd h (by simp)
    · rintro ⟨a, b, h⟩
      have := congrArg List.length h
      simp [tripleTicks] at this
      omega
  | c :: d :: e :: r =>
    have ihr := ih (d :: e :: r) (by simp)
    constructor
    · intro h
      simp only [hasTriple, Bool.or_eq_true] at h
      rcases h with h | h
      · rcases Bool.and_eq_true_iff.mp h with ⟨h1, he⟩
        rcases Bool.and_eq_true_iff.mp h1 with ⟨hc, hd⟩
        have hc' : c = tick := by simpa [isTick] using hc
        have hd' : d = tick := by simpa [isTick] using hd
        have he' : e = tick := by simpa [isTick] using he
        exact ⟨[], r, by simp [tripleTicks, hc', hd', he']⟩
      · exact occurs_cons c (ihr.mp h)
    · intro h
      rcases (occurs_cons_iff tripleTicks c (d :: e :: r)).mp h with ⟨t, ht⟩ | h2
      · simp only [tripleTicks, List.cons_append, List.cons.injEq] at ht
        rcases ht with ⟨rfl, rfl, rfl, -⟩
        simp [hasTriple, isTick]
      · simp only [hasTriple, Bool.or_eq_true]
        exact Or.inr (ihr.mpr h2)

theorem hasTriple_infix_false {x m y : List Char}
    (h : hasTriple (x ++ m ++ y) = false) : hasTriple m = false := by
  cases hm : hasTriple m
  · rfl
  · have := (hasTriple_iff _).mpr (occurs_wrap x y ((hasTriple_iff m).mp hm))
    rw [h] at this
    exact absurd this (by simp)

/-- The normalizer output contains no triple backtick. -/
theorem cleanCode_noTriple (code : String) : hasTriple (cleanCode code).data = false := by
  have hm : hasTriple (stripTicks (stripFences code.data)) = false := stripTicks_noTriple _
  obtain ⟨x, y, hxy⟩ := jsTrim_decomp (stripTicks (stripFences code.data))
  rw [hxy] at hm
  exact hasTriple_infix_false hm

/-- Idempotence of the result normalizer. -/
theorem cleanCode_idem (code : String) : cleanCode (cleanCode code) = cleanCode code := by
  have hy : hasTriple (jsTrim (stripTicks (stripFences code.data))) = false :=
    cleanCode_noTriple code
  calc cleanCode (cleanCode code)
      = ⟨jsTrim (stripTicks (stripFences (jsTrim (stripTicks (stripFences code.data)))))⟩ := rfl
    _ = ⟨jsTrim (jsTrim (stripTicks (stripFences code.data)))⟩ := by
        rw [stripFences_id _ hy, stripTicks_id _ hy]
    _ = ⟨jsTrim (stripTicks (stripFences code.data))⟩ := by rw [jsTrim_idem]
    _ = cleanCode code := rfl

/-! ### The provider orchestrator claims -/

theorem tryModels_exhausted (call : String → GenPayload → Except String String)
    (framework : String) (featureList : List String) (prompt : String)
    (imagePart : InlineImagePart) :
    ∀ models : List String,
    (∀ m ∈ models, ∀ payload, ∃ err, call m payload = Except.error err) →
    tryModels call framework featureList prompt imagePart models
      = generateFallbackCode framework featureList := by
  intro models
  induction models with
  | nil => intro _; rfl
  | cons m rest ih =>
    intro h
    obtain ⟨e1, he1⟩ := h m (List.mem_cons_self m rest) (GenPayload.visionReq prompt imagePart)
    obtain ⟨e2, he2⟩ :=
      h m (List.mem_cons_self m rest) (GenPayload.textReq (textOnlyPrompt prompt framework))
    simp only [tryModels, he1, he2]
    exact ih (fun m' hm' payload => h m' (List.mem_cons_of_mem m hm') payload)

/-- C1: for every well-formed request whose model list is exhausted (every
candidate model's vision and text-only calls fail), the generate-code
endpoint responds HTTP 200 with provider fallback-template and a
human-readable note; the fallback path never surfaces a hard failure. -/
theorem C1_exhausted_models_return_fallback_200
    (jsonParse : String → Except String (List String))
    (call : String → GenPayload → Except String String)
    (req : GenerateCodeRequest) (file : UploadedFile) (featureList : List String)
    (hfile : req.upload = some file)
    (hmime : leadsWith ("image/".data) file.mimetype.data = true)
    (hsize : file.buffer.length ≤ MAX_FILE_SIZE)
    (hparse : jsonParse (req.features.getD "[]") = Except.ok featureList)
    (hfail : ∀ m ∈ AVAILABLE_MODELS, ∀ payload, ∃ err, call m payload = Except.error err) :
    postGenerateCode jsonParse call req
      = Outcome.resp ⟨200, ResponseBody.result
          (fallbackResult (req.framework.getD "html") featureList)⟩
    ∧ (fallbackResult (req.framework.getD "html") featureList).provider = "fallback-template"
    ∧ (fallbackResult (req.framework.getD "html") featureList).note
        = some "Using fallback template - check your Gemini API configuration" := by
  refine ⟨?_, rfl, rfl⟩
  have hlt : ¬ MAX_FILE_SIZE < file.buffer.length := by omega
  simp only [postGenerateCode, generateCodeStack, dispatch, multerSingleImage, hfile,
    hmime, if_true, hlt, if_false, generateCodeHandler, hparse]
  rw [tryModels_exhausted call (req.framework.getD "html") featureList _ _ AVAILABLE_MODELS hfail]
  rfl

theorem C1_witness :
    postGenerateCode sampleJsonParse alwaysFailCall
        ⟨some samplePng, some "tailwind", some "[\"responsive\"]"⟩
      = Outcome.resp ⟨200, ResponseBody.result (fallbackResult "tailwind" ["responsive"])⟩
    ∧ (fallbackResult "tailwind" ["responsive"]).provider = "fallback-template"
    ∧ (fallbackResult "tailwind" ["responsive"]).note
        = some "Using fallback template - check your Gemini API configuration" :=
  C1_exhausted_models_return_fallback_200 sampleJsonParse alwaysFailCall
    ⟨some samplePng, some "tailwind", some "[\"responsive\"]"⟩ samplePng ["responsive"]
    rfl (by decide) (by decide) rfl
    (fun m hm payload => ⟨"quota exceeded", rfl⟩)

/-- C3: when the first candidate model's vision call throws but its
text-only call succeeds, the orchestrator answers from that same first
model with vision false; it never advances to a later candidate, and the
vision error is absorbed, not surfaced. -/
theorem C3_vision_error_degrades_within_first_model
    (call : String → GenPayload → Except String String)
    (framework : String) (featureList : List String) (prompt : String)
    (imagePart : InlineImagePart) (m : String) (rest : List String)
    (err generated : String)
    (hvision : call m (GenPayload.visionReq prompt imagePart) = Except.error err)
    (htext : call m (GenPayload.textReq (textOnlyPrompt prompt framework))
        = Except.ok generated) :
    tryModels call framework featureList prompt imagePart (m :: rest)
      = ⟨200, ResponseBody.result
          ⟨true, generated, framework, featureList, "google-gemini", m, false,
           some "Generated generic code (vision not available)"⟩⟩
    ∧ ∀ rest' : List String,
        tryModels call framework featureList prompt imagePart (m :: rest')
          = tryModels call framework featureList prompt imagePart (m :: rest) := by
  constructor
  · simp only [tryModels, hvision, htext]
  · intro rest'
    simp only [tryModels, hvision, htext]

theorem C3_witness :
    tryModels visionlessCall "html" [] (buildPrompt "html" [])
        (fileToGenerativePart samplePng.buffer samplePng.mimetype)
        ("gemini-pro" :: ["gemini-1.0-pro"])
      = ⟨200, ResponseBody.result
          ⟨true, "<div>generic component</div>", "html", [], "google-gemini",
           "gemini-pro", false, some "Generated generic code (vision not available)"⟩⟩ :=
  (C3_vision_error_degrades_within_first_model visionlessCall "html" []
    (buildPrompt "html" []) (fileToGenerativePart samplePng.buffer samplePng.mimetype)
    "gemini-pro" ["gemini-1.0-pro"] "vision not supported" "<div>generic component</div>"
    rfl rfl).1

/-! ### The validation and routing claims -/

/-- C9: a POST without an image field is answered 400 with the error body
No image file provided, and no provider call is attempted (the outcome is
the same for every call oracle). -/
theorem C9_missing_file_400
    (jsonParse : String → Except String (List String))
    (call : String → GenPayload → Except String String)
    (req : GenerateCodeRequest) (h : req.upload = none) :
    postGenerateCode jsonParse call req
      = Outcome.resp ⟨400, ResponseBody.errMsg "No image file provided"⟩
    ∧ ∀ call', postGenerateCode jsonParse call' req = postGenerateCode jsonParse call req := by
  have main : ∀ c : String → GenPayload → Except String String,
      postGenerateCode jsonParse c req
        = Outcome.resp ⟨400, ResponseBody.errMsg "No image file provided"⟩ := by
    intro c
    simp only [postGenerateCode, generateCodeStack, dispatch, multerSingleImage, h,
      generateCodeHandler]
  exact ⟨main call, fun call' => (main call').trans (main call).symm⟩

theorem C9_witness :
    (⟨none, none, none⟩ : GenerateCodeRequest).upload = none
    ∧ postGenerateCode sampleJsonParse alwaysFailCall ⟨none, none, none⟩
        = Outcome.resp ⟨400, ResponseBody.errMsg "No image file provided"⟩ :=
  ⟨rfl, (C9_missing_file_400 sampleJsonParse alwaysFailCall ⟨none, none, none⟩ rfl).1⟩

/-- C7 (code behaviour): an upload over the 10 MiB limit makes multer raise
LIMIT_FILE_SIZE, but the error-handling middleware that maps it to 400 is
registered before the route, so Express falls through to its default
handler and the response is 500, not 400. -/
theorem C7_oversized_file_gets_500_not_400
    (jsonParse : String → Except String (List String))
    (call : String → GenPayload → Except String String)
    (req : GenerateCodeRequest) (file : UploadedFile)
    (hfile : req.upload = some file)
    (hmime : leadsWith ("image/".data) file.mimetype.data = true)
    (hbig : MAX_FILE_SIZE < file.buffer.length) :
    postGenerateCode jsonParse call req
      = Outcome.resp ⟨500, ResponseBody.errMsg "File too large"⟩
    ∧ statusOf (postGenerateCode jsonParse call req) ≠ some 400 := by
  have hmulter : multerSingleImage req
      = Sum.inl ⟨true, "LIMIT_FILE_SIZE", "File too large"⟩ := by
    simp only [multerSingleImage, hfile, if_pos hmime, if_pos hbig]
  have main : postGenerateCode jsonParse call req
      = Outcome.resp ⟨500, ResponseBody.errMsg "File too large"⟩ := by
    simp only [postGenerateCode, generateCodeStack, dispatch, hmulter, dispatchError]
  refine ⟨main, ?_⟩
  rw [main]
  decide

theorem C7_witness :
    (⟨some oversizedPng, none, none⟩ : GenerateCodeRequest).upload = some oversizedPng
    ∧ MAX_FILE_SIZE < oversizedPng.buffer.length
    ∧ postGenerateCode sampleJsonParse alwaysFailCall ⟨some oversizedPng, none, none⟩
        = Outcome.resp ⟨500, ResponseBody.errMsg "File too large"⟩
    ∧ statusOf (postGenerateCode sampleJsonParse alwaysFailCall
        ⟨some oversizedPng, none, none⟩) ≠ some 400 := by
  have hbig : MAX_FILE_SIZE < oversizedPng.buffer.length := by
    show MAX_FILE_SIZE < (List.replicate (10 * 1024 * 1024 + 1) (0 : UInt8)).length
    rw [List.length_replicate]
    show 10 * 1024 * 1024 < 10 * 1024 * 1024 + 1
    omega
  have h := C7_oversized_file_gets_500_not_400 sampleJsonParse alwaysFailCall
    ⟨some oversizedPng, none, none⟩ oversizedPng rfl (by decide) hbig
  exact ⟨rfl, hbig, h.1, h.2⟩

/-! ### C6: unparsable features never yields a 400 -/

/-- C6 (counterexample): a request whose features field is not JSON is NOT
answered with HTTP 400 — the handler ends in an unhandled rejection and
sends no response at all. -/
theorem C6_unparsable_features_not_400 :
    postGenerateCode sampleJsonParse alwaysFailCall ⟨some samplePng, none, some "not json"⟩
      = Outcome.unhandledRejection "Unexpected token"
    ∧ statusOf (postGenerateCode sampleJsonParse alwaysFailCall
        ⟨some samplePng, none, some "not json"⟩) ≠ some 400 := by
  constructor
  · decide
  · decide

/-- C6 (amended): a request with unparsable features attempts no provider
call (the outcome is the same for every call oracle), but instead of a 400
the JSON.parse error reaches the outer catch, whose own re-parse of the
same features text throws again, so the handler rejects with no response. -/
theorem C6_amended_unparsable_features_reject_without_response
    (jsonParse : String → Except String (List String))
    (call : String → GenPayload → Except String String)
    (req : GenerateCodeRequest) (file : UploadedFile) (rawFeatures err : String)
    (hfile : req.upload = some file)
    (hmime : leadsWith ("image/".data) file.mimetype.data = true)
    (hsize : file.buffer.length ≤ MAX_FILE_SIZE)
    (hfeat : req.features = some rawFeatures)
    (hparse : jsonParse rawFeatures = Except.error err) :
    postGenerateCode jsonParse call req = Outcome.unhandledRejection err
    ∧ ∀ call', postGenerateCode jsonParse call' req = Outcome.unhandledRejection err := by
  have hlt : ¬ MAX_FILE_SIZE < file.buffer.length := by omega
  have main : ∀ c : String → GenPayload → Except String String,
      postGenerateCode jsonParse c req = Outcome.unhandledRejection err := by
    intro c
    simp only [postGenerateCode, generateCodeStack, dispatch, multerSingleImage, hfile,
      hmime, if_true, hlt, if_false, generateCodeHandler, hfeat, Option.getD_some, hparse]
  exact ⟨main call, main⟩

theorem C6_amended_witness :
    postGenerateCode sampleJsonParse alwaysFailCall ⟨some samplePng, none, some "not json"⟩
      = Outcome.unhandledRejection "Unexpected token" :=
  (C6_amended_unparsable_features_reject_without_response sampleJsonParse alwaysFailCall
    ⟨some samplePng, none, some "not json"⟩ samplePng "not json" "Unexpected token"
    rfl (by decide) (by decide) rfl rfl).1

/-! ### C2: the prompt builder on unknown frameworks -/

/-- C2 (counterexample): for the unknown framework svelte the built prompt
does NOT equal the html prompt — the framework slot renders as the literal
text undefined instead of falling back to the html instruction. -/
theorem C2_unknown_framework_not_html_prompt :
    buildPrompt "svelte" [] ≠ buildPrompt "html" [] := by
  decide

/-- C2 (amended): the prompt builder is total and deterministic, and for
every framework outside html, tailwind, react and vue it renders the
framework slot as the literal text undefined (the JS template-literal
rendering of a missing key), so its output differs from the html case. -/
theorem C2_amended_unknown_framework_renders_undefined
    (framework : String)
    (h1 : framework ≠ "html") (h2 : framework ≠ "tailwind")
    (h3 : framework ≠ "react") (h4 : framework ≠ "vue")
    (featureList : List String) :
    buildPrompt framework featureList
      = promptHead ++ "undefined" ++ promptMid ++ featureText featureList ++ promptTail
    ∧ buildPrompt framework featureList ≠ buildPrompt "html" featureList := by
  have hfp : frameworkPrompts framework = none := by
    simp [frameworkPrompts, h1, h2, h3, h4]
  have heq : buildPrompt framework featureList
      = promptHead ++ "undefined" ++ promptMid ++ featureText featureList ++ promptTail := by
    simp [buildPrompt, hfp, renderedLookup]
  refine ⟨heq, ?_⟩
  intro hcontra
  have hhtml : frameworkPrompts "html" = some htmlFrameworkPrompt := rfl
  have hl := congrArg String.length hcontra
  rw [heq] at hl
  simp only [buildPrompt, hhtml, renderedLookup, Option.getD_some,
    String.length_append] at hl
  have l1 : ("undefined" : String).length = 9 := by decide
  have l2 : htmlFrameworkPrompt.length = 107 := by decide
  rw [l1, l2] at hl
  omega

theorem C2_amended_witness :
    buildPrompt "svelte" []
      = promptHead ++ "undefined" ++ promptMid ++ featureText [] ++ promptTail
    ∧ buildPrompt "svelte" [] ≠ buildPrompt "html" [] :=
  C2_amended_unknown_framework_renders_undefined "svelte"
    (by decide) (by decide) (by decide) (by decide) []

/-! ### The result normalizer and preview builder claims -/

/-- C4: the result normalizer (fence stripping with optional language tag,
then trimming) is idempotent: normalizing twice equals normalizing once. -/
theorem C4_normalizer_idempotent :
    ∀ code : String, cleanCode (cleanCode code) = cleanCode code :=
  cleanCode_idem

/-- A string that is already normalized (no triple backtick, nothing to
trim) is a fixed point of the normalizer. -/
theorem cleanCode_of_clean {code : String}
    (h1 : hasTriple code.data = false) (h2 : jsTrim code.data = code.data) :
    cleanCode code = code := by
  calc cleanCode code
      = ⟨jsTrim (stripTicks (stripFences code.data))⟩ := rfl
    _ = ⟨jsTrim code.data⟩ := by rw [stripFences_id _ h1, stripTicks_id _ h1]
    _ = ⟨code.data⟩ := by rw [h2]
    _ = code := rfl

/-- Rule 1 of the preview builder: when the normalized code carries a
doctype or an opening html tag, the builder returns the normalized code. -/
theorem extract_complete (framework code : String)
    (h : (occursString "<!DOCTYPE html>" (cleanCode code)
        || occursString "<html" (cleanCode code)) = true) :
    extractHTMLFromCode framework code = cleanCode code := by
  show (if (occursString "<!DOCTYPE html>" (cleanCode code)
      || occursString "<html" (cleanCode code)) = true then cleanCode code
    else if framework = "react" then reactShellPre ++ cleanCode code ++ reactShellPost
    else if framework = "vue" then vueShellPre ++ cleanCode code ++ vueShellPost
    else if framework = "tailwind" then tailwindShellPre ++ cleanCode code ++ tailwindShellPost
    else htmlShellA ++ htmlStyleInjection (cleanCode code) ++ htmlShellB
      ++ htmlBodyInjection (cleanCode code) ++ htmlShellC) = cleanCode code
  rw [if_pos h]

/-- C5 (counterexample): an input that already contains an opening html tag
is not returned unchanged: the builder returns the normalized input, which
here differs by the stripped leading space. -/
theorem C5_complete_document_not_returned_verbatim :
    occursString "<html" " <html" = true
    ∧ extractHTMLFromCode "html" " <html" ≠ " <html" := by
  have hc : cleanCode " <html" = "<html" := by
    calc cleanCode " <html"
        = ⟨jsTrim (stripTicks (stripFences " <html".data))⟩ := rfl
      _ = ⟨jsTrim " <html".data⟩ := by
          rw [stripFences_id _ (by decide), stripTicks_id _ (by decide)]
      _ = "<html" := by decide
  refine ⟨by decide, ?_⟩
  have hcond : (occursString "<!DOCTYPE html>" (cleanCode " <html")
      || occursString "<html" (cleanCode " <html")) = true := by
    rw [hc]; decide
  have h2 := extract_complete "html" " <html" hcond
  rw [hc] at h2
  intro hcontra
  rw [h2] at hcontra
  exact absurd hcontra (by decide)

/-- C5 (amended): for every framework and every input whose NORMALIZED form
contains a doctype or an opening html tag, the builder returns that
normalized form; in particular an input that is already normalized is
returned unchanged. -/
theorem C5_amended_complete_document_passes_through_normalized
    (framework code : String)
    (h : (occursString "<!DOCTYPE html>" (cleanCode code)
        || occursString "<html" (cleanCode code)) = true) :
    extractHTMLFromCode framework code = cleanCode code
    ∧ (cleanCode code = code → extractHTMLFromCode framework code = code) := by
  have h2 := extract_complete framework code h
  exact ⟨h2, fun hcc => by rw [h2, hcc]⟩

theorem C5_amended_witness :
    extractHTMLFromCode "react" "<html></html>" = "<html></html>" := by
  have hcc : cleanCode "<html></html>" = "<html></html>" :=
    cleanCode_of_clean (by decide) (by decide)
  exact (C5_amended_complete_document_passes_through_normalized "react" "<html></html>"
    (by rw [hcc]; decide)).2 hcc

/-- C10: in the html branch (framework not react, vue or tailwind, code not
a complete document), a normalized code string containing both a brace and
an angle bracket but no style closing tag is embedded twice: once in the
style block of the head and once verbatim in the body. -/
theorem C10_html_branch_embeds_code_twice (framework code : String)
    (hdoc : (occursString "<!DOCTYPE html>" (cleanCode code)
        || occursString "<html" (cleanCode code)) = false)
    (hfw1 : framework ≠ "react") (hfw2 : framework ≠ "vue") (hfw3 : framework ≠ "tailwind")
    (hbrace : occursString "\x7b" (cleanCode code) = true)
    (hmarkup : occursString "<" (cleanCode code) = true)
    (hstyle : occursString "</style>" (cleanCode code) = false) :
    extractHTMLFromCode framework code
      = htmlShellA ++ cleanCode code ++ htmlShellB ++ cleanCode code ++ htmlShellC := by
  show (if (occursString "<!DOCTYPE html>" (cleanCode code)
      || occursString "<html" (cleanCode code)) = true then cleanCode code
    else if framework = "react" then reactShellPre ++ cleanCode code ++ reactShellPost
    else if framework = "vue" then vueShellPre ++ cleanCode code ++ vueShellPost
    else if framework = "tailwind" then tailwindShellPre ++ cleanCode code ++ tailwindShellPost
    else htmlShellA ++ htmlStyleInjection (cleanCode code) ++ htmlShellB
      ++ htmlBodyInjection (cleanCode code) ++ htmlShellC) = _
  rw [if_neg (by rw [hdoc]; exact Bool.false_ne_true), if_neg hfw1, if_neg hfw2,
    if_neg hfw3]
  unfold htmlStyleInjection htmlBodyInjection
  rw [if_neg (by rw [hstyle]; exact Bool.false_ne_true), if_pos hbrace, if_pos hmarkup]

theorem C10_witness :
    extractHTMLFromCode "html" "h1 \x7b color: red \x7d<div>Hi</div>"
      = htmlShellA ++ "h1 \x7b color: red \x7d<div>Hi</div>" ++ htmlShellB
        ++ "h1 \x7b color: red \x7d<div>Hi</div>" ++ htmlShellC := by
  have hcc : cleanCode "h1 \x7b color: red \x7d<div>Hi</div>"
      = "h1 \x7b color: red \x7d<div>Hi</div>" :=
    cleanCode_of_clean (by decide) (by decide)
  have h := C10_html_branch_embeds_code_twice "html" "h1 \x7b color: red \x7d<div>Hi</div>"
    (by rw [hcc]; decide) (by decide) (by decide) (by decide)
    (by rw [hcc]; decide) (by rw [hcc]; decide) (by rw [hcc]; decide)
  rw [hcc] at h
  exact h

/-! ### C8: feature instructions appear in the prompt iff requested -/

theorem stringData_append (s t : String) : (s ++ t).data = s.data ++ t.data := by
  cases s
  cases t
  rfl

theorem joinWith_space_data : ∀ ls : List String,
    (joinWith " " ls).data = joinChars ' ' (ls.map String.data) := by
  intro ls
  induction ls with
  | nil => rfl
  | cons s rest ih =>
    cases rest with
    | nil => rfl
    | cons s2 r2 =>
      show (s ++ " " ++ joinWith " " (s2 :: r2)).data
        = s.data ++ ' ' :: joinChars ' ' ((s2 :: r2).map String.data)
      rw [stringData_append, stringData_append, ih]
      simp

theorem featureText_data (l : List String) :
    (featureText l).data = joinChars ' ' (l.map (fun x => (featurePrompts x).data)) := by
  unfold featureText
  rw [joinWith_space_data, List.map_map]
  rfl

theorem occurs_join_of_mem {x : List Char} (sep : Char) :
    ∀ pieces : List (List Char), x ∈ pieces → Occurs x (joinChars sep pieces) := by
  intro pieces
  induction pieces with
  | nil => intro h; exact absurd h (List.not_mem_nil x)
  | cons l ls ih =>
    intro h
    rcases List.mem_cons.mp h with rfl | hmem
    · cases ls with
      | nil => exact occurs_self x
      | cons l2 r2 => exact ⟨[], sep :: joinChars sep (l2 :: r2), by simp [joinChars]⟩
    · cases ls with
      | nil => exact absurd hmem (List.not_mem_nil x)
      | cons l2 r2 =>
        rcases ih hmem with ⟨a, b, hab⟩
        exact ⟨l ++ sep :: a, b, by simp [joinChars, hab]⟩

theorem occurs_join_piece {w : List Char} {sep : Char} (hsep : sep ∉ w) (hne : w ≠ []) :
    ∀ pieces : List (List Char),
    Occurs w (joinChars sep pieces) → ∃ p ∈ pieces, Occurs w p := by
  intro pieces
  induction pieces with
  | nil => intro h; exact absurd (occurs_nil h) hne
  | cons l ls ih =>
    intro h
    cases ls with
    | nil => exact ⟨l, List.mem_cons_self l [], h⟩
    | cons l2 r2 =>
      have h' : Occurs w (l ++ sep :: joinChars sep (l2 :: r2)) := by
        simpa [joinChars] using h
      rcases occurs_split hsep l _ h' with hl | hr
      · exact ⟨l, List.mem_cons_self l (l2 :: r2), hl⟩
      · rcases ih hr with ⟨p, hp, hwp⟩
        exact ⟨p, List.mem_cons_of_mem l hp, hwp⟩

theorem fwPart_mem (fw : String) : renderedLookup (frameworkPrompts fw) ∈ fwInstList := by
  unfold renderedLookup frameworkPrompts fwInstList
  split_ifs <;> simp

/-- The prompt split at its newlines: leading newline, head line, the
framework line, the feature line, then the fixed tail. -/
theorem promptData_decomp (fw : String) (l : List String) :
    (buildPrompt fw l).data
      = '\n' :: (promptHeadLine.data
          ++ '\n' :: ((sixSpaces.data ++ (renderedLookup (frameworkPrompts fw)).data)
          ++ '\n' :: ((sixSpaces.data ++ (featureText l).data)
          ++ '\n' :: promptTailRest.data))) := by
  have h1 : promptHead.data = '\n' :: (promptHeadLine.data ++ '\n' :: sixSpaces.data) := by
    decide
  have h2 : promptMid.data = '\n' :: sixSpaces.data := by decide
  have h3 : promptTail.data = '\n' :: promptTailRest.data := by decide
  show (promptHead ++ renderedLookup (frameworkPrompts fw) ++ promptMid
      ++ featureText l ++ promptTail).data = _
  simp only [stringData_append, h1, h2, h3]
  simp [List.append_assoc]

theorem occurs_ne_nil {w s : List Char} (h : Occurs w s) (hw : w ≠ []) : s ≠ [] := by
  rcases h with ⟨a, b, rfl⟩
  intro hc
  rcases List.append_eq_nil.mp hc with ⟨h1, -⟩
  exact hw (List.append_eq_nil.mp h1).2

/-- If a feature sentence occurs anywhere in the built prompt and carries a
witness substring that only that feature's instruction contains, the
feature id is in the list. -/
theorem feature_occurs_only_if (f S w : String)
    (hwS : Occurs w.data S.data) (hwne : w.data ≠ [])
    (hwsp : (' ' : Char) ∉ w.data)
    (hnl : ('\n' : Char) ∉ S.data)
    (hH : occursIn S.data promptHeadLine.data = false)
    (hT : occursIn S.data promptTailRest.data = false)
    (hF5 : ∀ inst ∈ fwInstList, occursIn S.data (sixSpaces.data ++ inst.data) = false)
    (hwOnly : ∀ x : String, Occurs w.data (featurePrompts x).data → x = f)
    (fw : String) (l : List String)
    (hocc : Occurs S.data (buildPrompt fw l).data) : f ∈ l := by
  have hSne : S.data ≠ [] := occurs_ne_nil hwS hwne
  rw [promptData_decomp] at hocc
  have step0 : Occurs S.data (promptHeadLine.data
      ++ '\n' :: ((sixSpaces.data ++ (renderedLookup (frameworkPrompts fw)).data)
      ++ '\n' :: ((sixSpaces.data ++ (featureText l).data)
      ++ '\n' :: promptTailRest.data))) := by
    rcases occurs_split hnl [] _ hocc with h0 | h0
    · exact absurd (occurs_nil h0) hSne
    · exact h0
  have step1 : Occurs S.data ((sixSpaces.data ++ (renderedLookup (frameworkPrompts fw)).data)
      ++ '\n' :: ((sixSpaces.data ++ (featureText l).data)
      ++ '\n' :: promptTailRest.data)) := by
    rcases occurs_split hnl _ _ step0 with h0 | h0
    · rw [(occursIn_iff S.data promptHeadLine.data).mpr h0] at hH
      exact absurd hH (by simp)
    · exact h0
  have step2 : Occurs S.data ((sixSpaces.data ++ (featureText l).data)
      ++ '\n' :: promptTailRest.data) := by
    rcases occurs_split hnl _ _ step1 with h0 | h0
    · have hfw := hF5 (renderedLookup (frameworkPrompts fw)) (fwPart_mem fw)
      rw [(occursIn_iff _ _).mpr h0] at hfw
      exact absurd hfw (by simp)
    · exact h0
  have step3 : Occurs S.data (sixSpaces.data ++ (featureText l).data) := by
    rcases occurs_split hnl _ _ step2 with h0 | h0
    · exact h0
    · rw [(occursIn_iff _ _).mpr h0] at hT
      exact absurd hT (by simp)
  have hw3 : Occurs w.data (sixSpaces.data ++ (featureText l).data) :=
    occurs_trans hwS step3
  have hsp_all : ∀ c ∈ sixSpaces.data, c ∉ w.data := by
    intro c hcm
    have hc : c = ' ' := by
      have : ∀ c ∈ sixSpaces.data, c = ' ' := by decide
      exact this c hcm
    rw [hc]
    exact hwsp
  have hwft : Occurs w.data (featureText l).data :=
    occurs_skip_front hwne sixSpaces.data _ hsp_all hw3
  rw [featureText_data] at hwft
  rcases occurs_join_piece hwsp hwne _ hwft with ⟨p, hp, hwp⟩
  rcases List.mem_map.mp hp with ⟨x, hx, rfl⟩
  rw [hwOnly x hwp] at hx
  exact hx

/-- A requested feature's instruction does occur in the built prompt. -/
theorem feature_occurs_of_mem (f fw : String) (l : List String) (hf : f ∈ l) :
    Occurs (featurePrompts f).data (buildPrompt fw l).data := by
  have h1 : Occurs (featurePrompts f).data (featureText l).data := by
    rw [featureText_data]
    exact occurs_join_of_mem ' ' _ (List.mem_map.mpr ⟨f, hf, rfl⟩)
  have hsplit : (buildPrompt fw l).data
      = (promptHead.data ++ (renderedLookup (frameworkPrompts fw)).data ++ promptMid.data)
        ++ (featureText l).data ++ promptTail.data := by
    show (promptHead ++ renderedLookup (frameworkPrompts fw) ++ promptMid
        ++ featureText l ++ promptTail).data = _
    simp [stringData_append, List.append_assoc]
  rw [hsplit]
  exact occurs_wrap _ _ h1

theorem featurePrompts_unknown (x : String) (h : x ∉ knownFeatureIds) :
    featurePrompts x = "" := by
  simp only [knownFeatureIds, List.mem_cons, List.mem_singleton, not_or] at h
  obtain ⟨h1, h2, h3, h4⟩ := h
  simp [featurePrompts, h1, h2, h3, h4]

/-- C8 (counterexample): two unknown feature ids do change the built prompt
(they leave a join-separator space behind), so they do not contribute
literally nothing. -/
theorem C8_unknown_ids_leave_separator :
    "x" ∉ knownFeatureIds ∧ "y" ∉ knownFeatureIds
    ∧ buildPrompt "html" ["x", "y"] ≠ buildPrompt "html" [] :=
  ⟨by decide, by decide, by decide⟩

/-- C8 (amended): each known feature's instruction text occurs in the built
prompt iff that feature id is in the request's feature list; ids outside
the known four carry the empty instruction (silently ignored, never an
error) and contribute nothing to the prompt beyond their slot in the
space-join: the prompt is unchanged whenever the instruction lists agree. -/
theorem C8_amended_feature_instructions_iff (fw : String) (l : List String) :
    (∀ f ∈ knownFeatureIds,
      (Occurs (featurePrompts f).data (buildPrompt fw l).data ↔ f ∈ l))
    ∧ (∀ x : String, x ∉ knownFeatureIds → featurePrompts x = "")
    ∧ (∀ l2 : List String, l.map featurePrompts = l2.map featurePrompts →
        buildPrompt fw l = buildPrompt fw l2) := by
  refine ⟨?_, featurePrompts_unknown, ?_⟩
  · intro f hf
    constructor
    · intro hocc
      simp only [knownFeatureIds, List.mem_cons, List.not_mem_nil, or_false] at hf
      rcases hf with rfl | rfl | rfl | rfl
      · rw [show featurePrompts "responsive" = responsiveFeaturePrompt from rfl] at hocc
        exact feature_occurs_only_if "responsive" responsiveFeaturePrompt "Ensure"
          ((occursIn_iff _ _).mp (by decide)) (by decide) (by decide) (by decide)
          (by decide) (by decide)
          (by intro inst hinst
              simp only [fwInstList, List.mem_cons, List.not_mem_nil, or_false] at hinst
              rcases hinst with rfl | rfl | rfl | rfl | rfl <;> decide)
          (by intro x hx
              unfold featurePrompts at hx
              split_ifs at hx with e1 e2 e3 e4
              · exact e1
              · exact absurd ((occursIn_iff _ _).mpr hx) (by decide)
              · exact absurd ((occursIn_iff _ _).mpr hx) (by decide)
              · exact absurd ((occursIn_iff _ _).mpr hx) (by decide)
              · exact absurd (occurs_nil hx) (by decide))
          fw l hocc
      · rw [show featurePrompts "accessible" = accessibleFeaturePrompt from rfl] at hocc
        exact feature_occurs_only_if "accessible" accessibleFeaturePrompt "ARIA"
          ((occursIn_iff _ _).mp (by decide)) (by decide) (by decide) (by decide)
          (by decide) (by decide)
          (by intro inst hinst
              simp only [fwInstList, List.mem_cons, List.not_mem_nil, or_false] at hinst
              rcases hinst with rfl | rfl | rfl | rfl | rfl <;> decide)
          (by intro x hx
              unfold featurePrompts at hx
              split_ifs at hx with e1 e2 e3 e4
              · exact absurd ((occursIn_iff _ _).mpr hx) (by decide)
              · exact e2
              · exact absurd ((occursIn_iff _ _).mpr hx) (by decide)
              · exact absurd ((occursIn_iff _ _).mpr hx) (by decide)
              · exact absurd (occurs_nil hx) (by decide))
          fw l hocc
      · rw [show featurePrompts "interactive" = interactiveFeaturePrompt from rfl] at hocc
        exact feature_occurs_only_if "interactive" interactiveFeaturePrompt "hover"
          ((occursIn_iff _ _).mp (by decide)) (by decide) (by decide) (by decide)
          (by decide) (by decide)
          (by intro inst hinst
              simp only [fwInstList, List.mem_cons, List.not_mem_nil, or_false] at hinst
              rcases hinst with rfl | rfl | rfl | rfl | rfl <;> decide)
          (by intro x hx
              unfold featurePrompts at hx
              split_ifs at hx with e1 e2 e3 e4
              · exact absurd ((occursIn_iff _ _).mpr hx) (by decide)
              · exact absurd ((occursIn_iff _ _).mpr hx) (by decide)
              · exact e3
              · exact absurd ((occursIn_iff _ _).mpr hx) (by decide)
              · exact absurd (occurs_nil hx) (by decide))
          fw l hocc
      · rw [show featurePrompts "modern" = modernFeaturePrompt from rfl] at hocc
        exact feature_occurs_only_if "modern" modernFeaturePrompt "Flexbox/Grid"
          ((occursIn_iff _ _).mp (by decide)) (by decide) (by decide) (by decide)
          (by decide) (by decide)
          (by intro inst hinst
              simp only [fwInstList, List.mem_cons, List.not_mem_nil, or_false] at hinst
              rcases hinst with rfl | rfl | rfl | rfl | rfl <;> decide)
          (by intro x hx
              unfold featurePrompts at hx
              split_ifs at hx with e1 e2 e3 e4
              · exact absurd ((occursIn_iff _ _).mpr hx) (by decide)
              · exact absurd ((occursIn_iff _ _).mpr hx) (by decide)
              · exact absurd ((occursIn_iff _ _).mpr hx) (by decide)
              · exact e4
              · exact absurd (occurs_nil hx) (by decide))
          fw l hocc
    · intro hfl
      exact feature_occurs_of_mem f fw l hfl
  · intro l2 hmap
    unfold buildPrompt featureText
    rw [hmap]

end VisualToCode
